import Mathlib

/-!
# Verification of the PhysixArduboy core

Shallow embedding of the Physix physics sandbox (Pharap/PhysixArduboy).

Numeric model: the repository stores every spatial quantity in the
FixedPoints library types `Number = SFixed<12, 3>` (internal `int16_t`,
value = internal / 8) and `NumberU = UFixed<13, 3>` (internal `uint16_t`,
value = internal / 8).  We embed a fixed-point value by its internal
integer: a `Number` is an `Int` in `[-32768, 32767]`, a `NumberU` is an
`Int` in `[0, 65535]`.  The arithmetic below mirrors the library's
operations on internals, as pinned by the spec (12+3+sign bits,
wrap-on-overflow at the 16-bit word boundary, truncating multiply):
addition/subtraction/negation act on internals and wrap at 16 bits;
multiplication forms the product of internals in a wide (32-bit) type,
arithmetic-shifts it right by the 3 fraction bits (floor division by 8),
and casts back to the 16-bit internal type (wrap).
-/

namespace Physix

/-- Wrap an integer into the signed 16-bit range `[-32768, 32767]`,
as the AVR hardware does on `int16_t` overflow. -/
def wrap16 (i : Int) : Int :=
  (i + 32768) % 65536 - 32768

/-- Membership in the signed 16-bit internal range: the values an
`int16_t` internal representation can actually hold. -/
def inRange16 (i : Int) : Prop :=
  -32768 ≤ i ∧ i ≤ 32767

instance (i : Int) : Decidable (inRange16 i) := by
  unfold inRange16; infer_instance

/-- `Number` addition: internals add, wrapping at the 16-bit boundary. -/
def fadd (a b : Int) : Int :=
  wrap16 (a + b)

/-- `Number` subtraction: internals subtract, wrapping at 16 bits. -/
def fsub (a b : Int) : Int :=
  wrap16 (a - b)

/-- `Number` negation: internal negates, wrapping at 16 bits
(`-(-32768)` wraps back to `-32768`). -/
def fneg (a : Int) : Int :=
  wrap16 (-a)

/-- `Number` multiplication: 32-bit product of internals, arithmetic
shift right by the 3 fraction bits (= floor division by 8), cast back
to `int16_t` (wrap). -/
def fmul (a b : Int) : Int :=
  wrap16 ((a * b).fdiv 8)

/-- `NumberU` multiplication: 32-bit product of internals, logical shift
right by 3 (= division by 8 on non-negative values), cast to `uint16_t`. -/
def umul (a b : Int) : Int :=
  ((a * b) / 8) % 65536

/-- `fromSigned` (src/Physix/Physics/Common.h): reinterpret a `Number`
internal as a `NumberU` internal (`UFixed::fromInternal`). -/
def fromSigned (a : Int) : Int :=
  a % 65536

/-- `fromUnsigned` (src/Physix/Physics/Common.h): reinterpret a `NumberU`
internal as a `Number` internal (`SFixed::fromInternal`). -/
def fromUnsigned (a : Int) : Int :=
  wrap16 a

/-- `Number::Epsilon`, the least positive value: internal 1 (= 0.125). -/
def Epsilon : Int := 1

/-- `Point2` (src/unnamed/part_002): absolute position,
two `Number` coordinates stored as internals. -/
structure Point2 where
  x : Int
  y : Int
deriving DecidableEq, Repr

/-- `Vector2`: displacement/velocity/force, two `Number` components
stored as internals. -/
structure Vector2 where
  x : Int
  y : Int
deriving DecidableEq, Repr

/-- Modelled from the spec: `src` lacks `Physics/Vector.h` (only its
callers and `Point2`/`Rectangle` are present); §3 pins `Vector2` as
"component-wise add, subtract, negate, scale by a scalar FixedPoint". -/
def Vector2.add (a b : Vector2) : Vector2 :=
  ⟨fadd a.x b.x, fadd a.y b.y⟩

/-- Modelled from the spec: component-wise negation of a `Vector2`
(`operator -`), `src` lacks `Physics/Vector.h`. -/
def Vector2.neg (a : Vector2) : Vector2 :=
  ⟨fneg a.x, fneg a.y⟩

/-- Modelled from the spec: scale a `Vector2` by a scalar `Number`
(`operator *=`), component-wise, `src` lacks `Physics/Vector.h`. -/
def Vector2.scale (a : Vector2) (s : Int) : Vector2 :=
  ⟨fmul a.x s, fmul a.y s⟩

/-- `Point2::operator+=` (src/unnamed/part_003): translate a point by a
vector, component-wise `Number` addition. -/
def Point2.addVector (p : Point2) (v : Vector2) : Point2 :=
  ⟨fadd p.x v.x, fadd p.y v.y⟩

/-- `Point2::operator-=` (src/unnamed/part_003): translate a point by the
opposite of a vector, component-wise `Number` subtraction. -/
def Point2.subVector (p : Point2) (v : Vector2) : Point2 :=
  ⟨fsub p.x v.x, fsub p.y v.y⟩

/-- `square` (src/Physix/Physics/Common.h) at type `Number`. -/
def square (v : Int) : Int :=
  fmul v v

/-- `distanceSquared` (src/unnamed/part_002):
`fromSigned(square(ax - bx) + square(ay - by))`, all in `Number`
arithmetic, reinterpreted as `NumberU` at the end. -/
def distanceSquared (a b : Point2) : Int :=
  fromSigned (fadd (square (fsub a.x b.x)) (square (fsub a.y b.y)))

/-- `RigidBody` (src/Physix/Physics/RigidBody.h): position, velocity and
mass (mass internal 8 = 1.0 by default). -/
structure RigidBody where
  position : Point2
  velocity : Vector2
  mass : Int
deriving DecidableEq, Repr

/-!
## Game constants (src/Physix/Game.h)

Each `constexpr Number` constant is built from a floating literal by the
`SFixed` constructor, which truncates `value * 8` toward zero to the
internal integer:
* `coefficientOfFriction = 0.95` → internal `⌊0.95 × 8⌋ = 7` (= 0.875);
* `coefficientOfGravity = 0.5` → internal `4` (= 0.5);
* `coefficientOfRestitution = 0.3` → internal `⌊0.3 × 8⌋ = 2` (= 0.25);
* `restitutionThreshold = Number::Epsilon * 16` → internal
  `(1 × 128) >> 3 = 16` (= 2.0);
* `inputForce = 0.25` → internal `2` (= 0.25).

Screen bounds (`simulatePhysics`), `Number` internals of the `int16_t`
bounds: left `0`, right `(128 − 8) × 8 = 960`, top `0`,
bottom `(64 − 8) × 8 = 448`.
-/

def coefficientOfFriction : Int := 7

def coefficientOfGravity : Int := 4

def coefficientOfRestitution : Int := 2

def restitutionThreshold : Int := 16

def inputForce : Int := 2

def screenLeft : Int := 0

def screenRight : Int := 960

def screenTop : Int := 0

def screenBottom : Int := 448

/-!
## The simulation step (Game::simulatePhysics, src/Physix/Game.h 245-371)

One body's per-tick pipeline, split into the five sub-steps the source
performs in order: gravity, friction, horizontal bounce, vertical bounce,
position integration.  `gravityEnabled` and `gravitationalForce` are the
game-state parameters the source reads.
-/

/-- Sub-step 1 (Game.h 256-258): if gravity is enabled, add
`gravitationalForce` to the velocity. -/
def stepGravity (gravityEnabled : Bool) (gravitationalForce : Vector2)
    (b : RigidBody) : RigidBody :=
  if gravityEnabled then
    { b with velocity := b.velocity.add gravitationalForce }
  else
    b

/-- Sub-step 2 (Game.h 260-269): friction.  Gravity enabled: scale only
`velocity.x` by `coefficientOfFriction`; disabled: scale the whole
velocity. -/
def stepFriction (gravityEnabled : Bool) (b : RigidBody) : RigidBody :=
  if gravityEnabled then
    { b with velocity :=
        { b.velocity with x := fmul b.velocity.x coefficientOfFriction } }
  else
    { b with velocity := b.velocity.scale coefficientOfFriction }

/-- Sub-step 3 (Game.h 271-291): horizontal boundary collision.  If
`position.x < screenLeft`, clamp to `screenLeft` and negate `velocity.x`;
then, on the updated body, same for `screenRight`. -/
def stepHBounce (b : RigidBody) : RigidBody :=
  let b1 :=
    if b.position.x < screenLeft then
      { b with position := { b.position with x := screenLeft },
               velocity := { b.velocity with x := fneg b.velocity.x } }
    else
      b
  if b1.position.x > screenRight then
    { b1 with position := { b1.position with x := screenRight },
              velocity := { b1.velocity with x := fneg b1.velocity.x } }
  else
    b1

/-- The gravity-mode vertical-collision response at a bound
(Game.h 302-317 and 326-341, identical at the top and the bottom):
if `velocity.y > restitutionThreshold` then
`velocity.y := (-velocity.y) * coefficientOfRestitution`, else
`velocity.y := 0`. -/
def bounceOrStop (vy : Int) : Int :=
  if vy > restitutionThreshold then
    fmul (fneg vy) coefficientOfRestitution
  else
    0

/-- Sub-step 4 (Game.h 293-366): vertical boundary collision.  Gravity
enabled: clamp to the crossed bound and apply `bounceOrStop`; gravity
disabled: clamp and negate `velocity.y` unconditionally.  The top test
runs first, then the bottom test on the updated body. -/
def stepVBounce (gravityEnabled : Bool) (b : RigidBody) : RigidBody :=
  if gravityEnabled then
    let b1 :=
      if b.position.y < screenTop then
        { b with position := { b.position with y := screenTop },
                 velocity := { b.velocity with y := bounceOrStop b.velocity.y } }
      else
        b
    if b1.position.y > screenBottom then
      { b1 with position := { b1.position with y := screenBottom },
                velocity := { b1.velocity with y := bounceOrStop b1.velocity.y } }
    else
      b1
  else
    let b1 :=
      if b.position.y < screenTop then
        { b with position := { b.position with y := screenTop },
                 velocity := { b.velocity with y := fneg b.velocity.y } }
      else
        b
    if b1.position.y > screenBottom then
      { b1 with position := { b1.position with y := screenBottom },
                velocity := { b1.velocity with y := fneg b1.velocity.y } }
    else
      b1

/-- Sub-step 5 (Game.h 368-369): integrate, `position += velocity`. -/
def stepIntegrate (b : RigidBody) : RigidBody :=
  { b with position := b.position.addVector b.velocity }

/-- One body's full per-tick pipeline, in the source's order:
gravity, friction, horizontal bounce, vertical bounce, integration. -/
def simulateBody (gravityEnabled : Bool) (gravitationalForce : Vector2)
    (b : RigidBody) : RigidBody :=
  stepIntegrate
    (stepVBounce gravityEnabled
      (stepHBounce
        (stepFriction gravityEnabled
          (stepGravity gravityEnabled gravitationalForce b))))

/-!
## Game state and the input controller (Game::updateInput, Game.h 193-242)
-/

/-- The simulation state the controller and the step read and write
(Game.h 55-70): the 8 bodies (index 0 is `playerObject`), the gravity
flag, the gravity vector, and the diagnostics-rendering flag. -/
structure GameState where
  objects : Fin 8 → RigidBody
  gravityEnabled : Bool
  gravitationalForce : Vector2
  statRenderingEnabled : Bool

/-- One input snapshot, the source's `arduboy.pressed` /
`arduboy.justPressed` queries abstracted as booleans. -/
structure InputState where
  bHeld : Bool
  aJustPressed : Bool
  downJustPressed : Bool
  upJustPressed : Bool
  leftJustPressed : Bool
  leftHeld : Bool
  rightHeld : Bool
  upHeld : Bool
  downHeld : Bool

/-- `Number(integer, fraction)`: the two-argument `SFixed` constructor,
internal = integer × 8 + fraction (fraction in `[0, 7]`), wrapped. -/
def numberFrom (integer fraction : Int) : Int :=
  wrap16 (integer * 8 + fraction)

/-- One body's re-randomisation (Game::randomiseObjects, Game.h 123-154).
The entropy source `random` is external; we model it as an oracle
`e : Nat → Int` of the successive `random(...)` results, the `k`-th body
consuming the six draws `e (6k) … e (6k+5)` in the source's textual
order: position x, position y, xInteger, xFraction, yInteger, yFraction.
Position is set to `(Number(e₀), Number(e₁))` (integer constructor,
internal = value × 8); with gravity enabled only the y offset is added
to the velocity, otherwise both offsets are. -/
def randomiseBody (gravityEnabled : Bool) (e : Nat → Int) (k : Nat)
    (b : RigidBody) : RigidBody :=
  let position : Point2 :=
    ⟨wrap16 (e (6 * k) * 8), wrap16 (e (6 * k + 1) * 8)⟩
  let xOffset := numberFrom (e (6 * k + 2)) (e (6 * k + 3))
  let yOffset := numberFrom (e (6 * k + 4)) (e (6 * k + 5))
  if gravityEnabled then
    { b with position := position,
             velocity := b.velocity.add ⟨0, yOffset⟩ }
  else
    { b with position := position,
             velocity := b.velocity.add ⟨xOffset, yOffset⟩ }

/-- `Game::randomiseObjects` (Game.h 123-154): re-randomise every body's
position and perturb its velocity, in index order. -/
def randomiseObjects (e : Nat → Int) (s : GameState) : GameState :=
  { s with objects := fun i => randomiseBody s.gravityEnabled e i.val (s.objects i) }

/-- The force accumulated from the directional controls
(Game.h 217-231): start from `(0, 0)`, add `-inputForce` / `inputForce`
to x for left/right held, and to y for up/down held. -/
def playerForce (inp : InputState) : Vector2 :=
  let f : Vector2 := ⟨0, 0⟩
  let f := if inp.leftHeld then { f with x := fadd f.x (fneg inputForce) } else f
  let f := if inp.rightHeld then { f with x := fadd f.x inputForce } else f
  let f := if inp.upHeld then { f with y := fadd f.y (fneg inputForce) } else f
  if inp.downHeld then { f with y := fadd f.y inputForce } else f

/-- `Game::updateInput` (Game.h 193-242).  Modifier (B) held: A
re-randomises all bodies, Down toggles gravity, Up negates the gravity
vector, Left toggles diagnostics.  Modifier not held: the accumulated
directional force is added to body 0's velocity, then A zeroes body 0's
velocity. -/
def updateInput (inp : InputState) (e : Nat → Int) (s : GameState) : GameState :=
  if inp.bHeld then
    let s1 := if inp.aJustPressed then randomiseObjects e s else s
    let s2 := if inp.downJustPressed then
        { s1 with gravityEnabled := !s1.gravityEnabled } else s1
    let s3 := if inp.upJustPressed then
        { s2 with gravitationalForce := s2.gravitationalForce.neg } else s2
    if inp.leftJustPressed then
      { s3 with statRenderingEnabled := !s3.statRenderingEnabled }
    else
      s3
  else
    let b0 := s.objects 0
    let b0' := { b0 with velocity := b0.velocity.add (playerForce inp) }
    let s1 := { s with objects := Function.update s.objects 0 b0' }
    if inp.aJustPressed then
      let b0'' := { s1.objects 0 with velocity := (⟨0, 0⟩ : Vector2) }
      { s1 with objects := Function.update s1.objects 0 b0'' }
    else
      s1

/-!
## Geometry primitives (Circle.h, src/unnamed/part_001)
-/

/-- `Circle` (src/Physix/Physics/Circle.h): centre and `NumberU` radius. -/
structure Circle where
  position : Point2
  radius : Int
deriving DecidableEq, Repr

/-- `Circle::getRadiusSquared`: `radius * radius` in `NumberU`. -/
def Circle.getRadiusSquared (c : Circle) : Int :=
  umul c.radius c.radius

/-- `Circle::intersects(Point2)` (Circle.h 94-97): true when
`distanceSquared(position, point) <= getRadiusSquared()`. -/
def Circle.intersects (c : Circle) (point : Point2) : Prop :=
  distanceSquared c.position point ≤ c.getRadiusSquared

instance (c : Circle) (p : Point2) : Decidable (c.intersects p) := by
  unfold Circle.intersects; infer_instance

/-- `Circle::contains(Point2)` (Circle.h 100-103): true when
`distanceSquared(position, point) < getRadiusSquared()`. -/
def Circle.contains (c : Circle) (point : Point2) : Prop :=
  distanceSquared c.position point < c.getRadiusSquared

instance (c : Circle) (p : Point2) : Decidable (c.contains p) := by
  unfold Circle.contains; infer_instance

/-- `Size2` (src/Physix): `NumberU` width and height. -/
structure Size2 where
  width : Int
  height : Int
deriving DecidableEq, Repr

/-- `Rectangle` (src/unnamed/part_001): position and size. -/
structure Rectangle where
  position : Point2
  size : Size2
deriving DecidableEq, Repr

/-- `Rectangle::getLeft`. -/
def Rectangle.getLeft (r : Rectangle) : Int :=
  r.position.x

/-- `Rectangle::getRight`: `getX() + fromUnsigned(getWidth())`. -/
def Rectangle.getRight (r : Rectangle) : Int :=
  fadd r.position.x (fromUnsigned r.size.width)

/-- `Rectangle::getTop`. -/
def Rectangle.getTop (r : Rectangle) : Int :=
  r.position.y

/-- `Rectangle::getBottom`: `getY() + fromUnsigned(getHeight())`. -/
def Rectangle.getBottom (r : Rectangle) : Int :=
  fadd r.position.y (fromUnsigned r.size.height)

/-- `Rectangle::intersects(Point2)` (part_001 70-77): the four
closed-interval edge comparisons. -/
def Rectangle.intersects (r : Rectangle) (point : Point2) : Prop :=
  point.x ≥ r.getLeft ∧ point.x ≤ r.getRight ∧
    point.y ≥ r.getTop ∧ point.y ≤ r.getBottom

instance (r : Rectangle) (p : Point2) : Decidable (r.intersects p) := by
  unfold Rectangle.intersects; infer_instance

/-- Free `intersects(Rectangle, Rectangle)` (part_001 81-90): the negated
strict-separation disjunction. -/
def rectanglesIntersect (first second : Rectangle) : Prop :=
  ¬(first.getRight < second.getLeft ∨ first.getLeft > second.getRight ∨
      first.getBottom < second.getTop ∨ first.getTop > second.getBottom)

instance (r₁ r₂ : Rectangle) : Decidable (rectanglesIntersect r₁ r₂) := by
  unfold rectanglesIntersect; infer_instance

/-!
## Helper lemmas
-/

/-- `wrap16` is the identity on the 16-bit range. -/
theorem wrap16_eq_self {i : Int} (h : inRange16 i) : wrap16 i = i := by
  obtain ⟨h1, h2⟩ := h
  unfold wrap16
  omega

/-- Double `Number` negation is the identity on internals in range
(including `-32768`, which wraps to itself under one negation). -/
theorem fneg_fneg {a : Int} (h : inRange16 a) : fneg (fneg a) = a := by
  obtain ⟨h1, h2⟩ := h
  unfold fneg wrap16
  omega

/-- Double `Vector2` negation is the identity on in-range components. -/
theorem Vector2.neg_neg {v : Vector2} (hx : inRange16 v.x)
    (hy : inRange16 v.y) : v.neg.neg = v := by
  obtain ⟨x, y⟩ := v
  simp only [Vector2.neg]
  rw [fneg_fneg hx, fneg_fneg hy]

/-- The horizontal sub-step leaves both bounds respected, whatever the
incoming position (each clamp writes the bound itself; the right-bound
test reruns on the updated position). -/
theorem stepHBounce_x_bounds (b : RigidBody) :
    screenLeft ≤ (stepHBounce b).position.x ∧
      (stepHBounce b).position.x ≤ screenRight := by
  unfold stepHBounce screenLeft screenRight
  dsimp only
  split <;> split <;> simp_all

/-- The horizontal sub-step does not touch the vertical position. -/
theorem stepHBounce_py (b : RigidBody) :
    (stepHBounce b).position.y = b.position.y := by
  unfold stepHBounce
  dsimp only
  split <;> split <;> rfl

/-- The horizontal sub-step does not touch the vertical velocity. -/
theorem stepHBounce_vy (b : RigidBody) :
    (stepHBounce b).velocity.y = b.velocity.y := by
  unfold stepHBounce
  dsimp only
  split <;> split <;> rfl

/-- With gravity enabled, friction does not touch position or
vertical velocity. -/
theorem stepFriction_gravity_y (b : RigidBody) :
    (stepFriction true b).position = b.position ∧
      (stepFriction true b).velocity.y = b.velocity.y := by
  unfold stepFriction
  exact ⟨rfl, rfl⟩

/-- With gravity enabled: a body strictly past the bottom bound whose
vertical velocity does not exceed the restitution threshold is clamped
to the bottom with its vertical velocity zeroed. -/
theorem stepVBounce_settle (b : RigidBody)
    (hcross : b.position.y > screenBottom)
    (hslow : ¬(b.velocity.y > restitutionThreshold)) :
    (stepVBounce true b).position.y = screenBottom ∧
      (stepVBounce true b).velocity.y = 0 := by
  unfold stepVBounce bounceOrStop screenTop screenBottom at *
  split_ifs with h1 h2 h3 <;> first | exact ⟨rfl, rfl⟩ | omega | simp_all

/-!
## The claims
-/

/-- C1, as stated, is false at the top bound: the source compares the
signed `velocity.y` against `restitutionThreshold`, not the vertical
speed.  A body that crossed the top bound (`position.y` internal `-8`,
i.e. `-1.0 < screenTop`) moving up at `-3.0` (internal `-24`, speed
`3.0 >` the `2.0` threshold) has its vertical velocity zeroed, not set
to `-velocity.y * coefficientOfRestitution` (which would be internal
`6`). -/
theorem C1_counterexample :
    (⟨⟨0, -8⟩, ⟨0, -24⟩, 8⟩ : RigidBody).position.y < screenTop ∧
      restitutionThreshold < 24 ∧
      (stepVBounce true ⟨⟨0, -8⟩, ⟨0, -24⟩, 8⟩).velocity.y ≠
        fmul (fneg (-24 : Int)) coefficientOfRestitution := by
  decide

/-- C1 (amended): with gravity enabled, when the body's position has
crossed a vertical bound and its incoming signed `velocity.y` exceeds
`restitutionThreshold`, the vertical-collision sub-step sets the
outgoing `velocity.y` to exactly
`(-incoming.velocity.y) * coefficientOfRestitution`, at both bounds. -/
theorem C1_restitution_bounce (b : RigidBody)
    (hcross : b.position.y < screenTop ∨ b.position.y > screenBottom)
    (hfast : b.velocity.y > restitutionThreshold) :
    (stepVBounce true b).velocity.y =
      fmul (fneg b.velocity.y) coefficientOfRestitution := by
  unfold stepVBounce bounceOrStop screenTop screenBottom at *
  rcases hcross with h | h <;>
    split_ifs <;> first | rfl | omega | simp_all

/-- C1 witness: a body past the bottom bound (internal `460 > 448`)
falling at `3.0` (internal `24 > 16`) leaves the sub-step with
`velocity.y = (-3.0) × 0.25` (internal `-6`). -/
theorem C1_restitution_bounce_witness :
    (stepVBounce true ⟨⟨0, 460⟩, ⟨0, 24⟩, 8⟩).velocity.y =
      fmul (fneg (24 : Int)) coefficientOfRestitution :=
  C1_restitution_bounce ⟨⟨0, 460⟩, ⟨0, 24⟩, 8⟩ (Or.inr (by decide)) (by decide)

/-- C3, as stated, is false: position integration runs after the
vertical clamp, so a fast body leaves the vertical range again within
the same tick.  Gravity disabled, a body at `y = 10.0` (internal `80`)
with `velocity.y = 60.0` (internal `480`): friction leaves `52.5`
(internal `420`), no bound is crossed, and integration puts
`position.y` at `62.5` (internal `500`), beyond `screenBottom`
(`56.0`, internal `448`). -/
theorem C3_counterexample :
    (simulateBody false ⟨0, coefficientOfGravity⟩
        ⟨⟨0, 80⟩, ⟨0, 480⟩, 8⟩).position.y = 500 ∧
      screenBottom < 500 := by
  decide

/-- C3 (amended): with gravity disabled, after the vertical-collision
sub-step (before integration) the body's position satisfies
`screenTop ≤ position.y ≤ screenBottom`, and if the incoming position
had crossed a vertical bound the sub-step exactly negates
`velocity.y`. -/
theorem C3_vertical_elastic (b : RigidBody) :
    screenTop ≤ (stepVBounce false b).position.y ∧
      (stepVBounce false b).position.y ≤ screenBottom ∧
      ((b.position.y < screenTop ∨ b.position.y > screenBottom) →
        (stepVBounce false b).velocity.y = fneg b.velocity.y) := by
  unfold screenTop screenBottom
  by_cases h1 : b.position.y < 0
  · have e : stepVBounce false b =
        { b with position := { b.position with y := 0 },
                 velocity := { b.velocity with y := fneg b.velocity.y } } := by
      norm_num [stepVBounce, screenTop, screenBottom]
      rw [if_pos h1]
      norm_num
    rw [e]
    norm_num
  · by_cases h2 : b.position.y > 448
    · have e : stepVBounce false b =
          { b with position := { b.position with y := 448 },
                   velocity := { b.velocity with y := fneg b.velocity.y } } := by
        norm_num [stepVBounce, screenTop, screenBottom]
        rw [if_neg h1]
        rw [if_pos h2]
      rw [e]
      norm_num
    · have e : stepVBounce false b = b := by
        norm_num [stepVBounce, screenTop, screenBottom]
        rw [if_neg h1]
        rw [if_neg h2]
      rw [e]
      exact ⟨by omega, by omega, fun hc => by omega⟩

/-- C3 witness: gravity disabled, a body above the top bound (internal
`-8 < 0`) moving up at `-3.0` (internal `-24`) is clamped into range and
leaves the sub-step with `velocity.y` exactly negated (internal `24`). -/
theorem C3_vertical_elastic_witness :
    screenTop ≤ (stepVBounce false ⟨⟨0, -8⟩, ⟨0, -24⟩, 8⟩).position.y ∧
      (stepVBounce false ⟨⟨0, -8⟩, ⟨0, -24⟩, 8⟩).position.y ≤ screenBottom ∧
      (stepVBounce false ⟨⟨0, -8⟩, ⟨0, -24⟩, 8⟩).velocity.y = fneg (-24 : Int) :=
  ⟨(C3_vertical_elastic ⟨⟨0, -8⟩, ⟨0, -24⟩, 8⟩).1,
   (C3_vertical_elastic ⟨⟨0, -8⟩, ⟨0, -24⟩, 8⟩).2.1,
   (C3_vertical_elastic ⟨⟨0, -8⟩, ⟨0, -24⟩, 8⟩).2.2 (Or.inl (by decide))⟩

/-- C4, as stated, is false: a body at `y = bottom − 0.1` (nearest
representable `55.875`, internal `447`) has not crossed the bottom bound
(the test is strict `position.y > screenBottom`), so no clamp and no
restitution happen; gravity adds `0.5` and the tick ends with
`velocity.y = 3.5` (internal `28`) and `position.y = 59.375`
(internal `475`), not the bottom bound. -/
theorem C4_counterexample :
    (simulateBody true ⟨0, coefficientOfGravity⟩
        ⟨⟨0, 447⟩, ⟨0, 24⟩, 8⟩).position.y ≠ screenBottom ∧
      (simulateBody true ⟨0, coefficientOfGravity⟩
        ⟨⟨0, 447⟩, ⟨0, 24⟩, 8⟩).velocity.y = 28 := by
  decide

/-- C4 (amended): gravity on, a body just past the bottom bound
(`y = 56.125`, internal `449`) falling at `3.0` (internal `24`): the tick
first adds gravity (`velocity.y = 3.5`), the sub-step clamps to the
bottom and sets `velocity.y = (-3.5) × 0.25 = -0.875` (internal `-7`;
`coefficientOfRestitution` is the fixed-point value `0.25`, not `0.3`),
and integration then moves the body to `y = 55.125` (internal `441`). -/
theorem C4_scenario :
    simulateBody true ⟨0, coefficientOfGravity⟩ ⟨⟨0, 449⟩, ⟨0, 24⟩, 8⟩ =
      ⟨⟨0, 441⟩, ⟨0, -7⟩, 8⟩ := by
  decide

/-- C6: in both gravity modes, immediately after the horizontal
boundary-collision sub-step of any tick's pipeline, the body's
horizontal position satisfies `screenLeft ≤ position.x ≤ screenRight`. -/
theorem C6_horizontal_clamp (gravityEnabled : Bool)
    (gravitationalForce : Vector2) (b : RigidBody) :
    screenLeft ≤
        (stepHBounce (stepFriction gravityEnabled
          (stepGravity gravityEnabled gravitationalForce b))).position.x ∧
      (stepHBounce (stepFriction gravityEnabled
        (stepGravity gravityEnabled gravitationalForce b))).position.x ≤
        screenRight :=
  stepHBounce_x_bounds _

/-- C8, as stated, is false for the domain's screen-sized coordinate
range: the squares are computed in signed 16-bit `Number` arithmetic and
wrap.  For the on-screen points `(127, 0)` and `(0, 0)` (internals
`1016`, `0`) the true squared distance is `127² = 16129` (internal
`8 × 16129 = 129032`, beyond even the unsigned internal range), while
`distanceSquared` returns internal `63496` (= `7937`). -/
theorem C8_counterexample :
    distanceSquared ⟨1016, 0⟩ ⟨0, 0⟩ = 63496 ∧
      (63496 : Int) ≠ 8 * 16129 := by
  decide

/-- C8 (amended): for points with whole-pixel coordinates in the
representable integer range whose true squared distance is at most
`4095` (the largest integer the 16-bit fixed-point words can carry),
`distanceSquared` is exact: it returns the unsigned fixed-point value
`(ax−bx)² + (ay−by)²` (internal `8 ×` that), with no intermediate
overflow.  Beyond that (already within screen range, see the
counterexample) the signed intermediates wrap. -/
theorem C8_distanceSquared_exact (ax ay bx by' : Int)
    (hax : -2048 ≤ ax ∧ ax ≤ 2047) (hay : -2048 ≤ ay ∧ ay ≤ 2047)
    (hbx : -2048 ≤ bx ∧ bx ≤ 2047) (hby : -2048 ≤ by' ∧ by' ≤ 2047)
    (hsum : (ax - bx) ^ 2 + (ay - by') ^ 2 ≤ 4095) :
    distanceSquared ⟨8 * ax, 8 * ay⟩ ⟨8 * bx, 8 * by'⟩ =
      8 * ((ax - bx) ^ 2 + (ay - by') ^ 2) := by
  have hdx2 : 0 ≤ (ax - bx) ^ 2 := sq_nonneg _
  have hdy2 : 0 ≤ (ay - by') ^ 2 := sq_nonneg _
  have hsub_x : fsub (8 * ax) (8 * bx) = 8 * (ax - bx) := by
    unfold fsub wrap16; omega
  have hsub_y : fsub (8 * ay) (8 * by') = 8 * (ay - by') := by
    unfold fsub wrap16; omega
  have hsq : ∀ d : Int, 0 ≤ d ^ 2 → d ^ 2 ≤ 4095 →
      square (8 * d) = 8 * d ^ 2 := by
    intro d h0 h4095
    unfold square fmul
    have : (8 * d) * (8 * d) = 8 * (8 * d ^ 2) := by ring
    rw [this, Int.mul_fdiv_cancel_left _ (by norm_num)]
    unfold wrap16
    omega
  unfold distanceSquared
  rw [hsub_x, hsub_y,
    hsq _ hdx2 (by nlinarith), hsq _ hdy2 (by nlinarith)]
  unfold fadd fromSigned wrap16
  omega

/-- C8 witness: the points `(3, 4)` and `(0, 0)` (internals `(24, 32)`
and `(0, 0)`) give exactly `3² + 4² = 25` (internal `200`). -/
theorem C8_distanceSquared_exact_witness :
    distanceSquared ⟨8 * 3, 8 * 4⟩ ⟨8 * 0, 8 * 0⟩ =
      8 * (((3 : Int) - 0) ^ 2 + ((4 : Int) - 0) ^ 2) :=
  C8_distanceSquared_exact 3 4 0 0 (by decide) (by decide) (by decide)
    (by decide) (by decide)

/-- C9: the geometry predicates use the stated boundary semantics for
every input.  `Circle.intersects` is exactly the closed comparison
`distanceSquared ≤ radius²` and `Circle.contains` the open one
(`contains` implies `intersects`, and a point exactly on the boundary
intersects without being contained); `Rectangle.intersects` for a point
is the conjunction of the four closed edge comparisons, and for two
rectangles holds exactly when the four closed-interval overlap
comparisons all hold. -/
theorem C9_boundary_semantics :
    (∀ (c : Circle) (p : Point2),
        c.intersects p ↔ distanceSquared c.position p ≤ c.getRadiusSquared) ∧
      (∀ (c : Circle) (p : Point2),
        c.contains p ↔ distanceSquared c.position p < c.getRadiusSquared) ∧
      (∀ (c : Circle) (p : Point2), c.contains p → c.intersects p) ∧
      (∀ (c : Circle) (p : Point2),
        distanceSquared c.position p = c.getRadiusSquared →
          c.intersects p ∧ ¬c.contains p) ∧
      (∀ (r : Rectangle) (p : Point2),
        r.intersects p ↔
          r.getLeft ≤ p.x ∧ p.x ≤ r.getRight ∧
            r.getTop ≤ p.y ∧ p.y ≤ r.getBottom) ∧
      (∀ r₁ r₂ : Rectangle,
        rectanglesIntersect r₁ r₂ ↔
          r₂.getLeft ≤ r₁.getRight ∧ r₁.getLeft ≤ r₂.getRight ∧
            r₂.getTop ≤ r₁.getBottom ∧ r₁.getTop ≤ r₂.getBottom) := by
  refine ⟨fun c p => Iff.rfl, fun c p => Iff.rfl, ?_, ?_, ?_, ?_⟩
  · intro c p h
    exact le_of_lt h
  · intro c p h
    exact ⟨le_of_eq h, by rw [Circle.contains, h]; exact lt_irrefl _⟩
  · intro r p
    unfold Rectangle.intersects
    constructor
    · rintro ⟨h1, h2, h3, h4⟩
      exact ⟨h1, h2, h3, h4⟩
    · rintro ⟨h1, h2, h3, h4⟩
      exact ⟨h1, h2, h3, h4⟩
  · intro r₁ r₂
    unfold rectanglesIntersect
    push_neg
    omega

/-- C9 witness: the unit circle at the origin (radius internal `8`,
radius² internal `8`) and the point `(1.0, 0)` (internal `(8, 0)`),
whose squared distance is exactly radius²: it intersects the circle but
is not contained in it. -/
theorem C9_boundary_semantics_witness :
    (⟨⟨0, 0⟩, 8⟩ : Circle).intersects ⟨8, 0⟩ ∧
      ¬(⟨⟨0, 0⟩, 8⟩ : Circle).contains ⟨8, 0⟩ :=
  C9_boundary_semantics.2.2.2.1 ⟨⟨0, 0⟩, 8⟩ ⟨8, 0⟩ (by decide)

/-- C10: translating a `Point2` by a `Vector2` and back
(`p += v; p -= v`) restores the point exactly, including when the
16-bit component additions wrap, for every in-range point and every
in-range vector. -/
theorem C10_translate_roundtrip (p : Point2) (v : Vector2)
    (hx : inRange16 p.x) (hy : inRange16 p.y) :
    (p.addVector v).subVector v = p := by
  obtain ⟨px, py⟩ := p
  obtain ⟨vx, vy⟩ := v
  obtain ⟨hx1, hx2⟩ := hx
  obtain ⟨hy1, hy2⟩ := hy
  simp only [Point2.addVector, Point2.subVector, fadd, fsub, wrap16] at *
  rw [Point2.mk.injEq]
  constructor <;> omega

/-- C10 witness: the point with `x` internal `32767` (the largest
representable) translated by `(1, 0)` wraps to `-32768` and is restored
exactly by the inverse translation. -/
theorem C10_translate_roundtrip_witness :
    (Point2.addVector ⟨32767, 0⟩ ⟨1, 0⟩).subVector ⟨1, 0⟩ =
      (⟨32767, 0⟩ : Point2) :=
  C10_translate_roundtrip ⟨32767, 0⟩ ⟨1, 0⟩ (by decide) (by decide)

/-- C2, as stated, is false: the vertical collision test is the strict
`position.y > screenBottom`, so a body resting exactly at the bottom
bound (internal `448`) with zero incoming vertical speed never enters
the zeroing branch — gravity is added and the tick ends with
`velocity.y = coefficientOfGravity` (internal `4` = `0.5`), not `0`. -/
theorem C2_counterexample :
    (simulateBody true ⟨0, coefficientOfGravity⟩
        ⟨⟨0, screenBottom⟩, ⟨0, 0⟩, 8⟩).velocity.y = coefficientOfGravity ∧
      coefficientOfGravity ≠ 0 := by
  decide

/-- C2 (amended): with gravity enabled, a body strictly past the bottom
bound whose vertical velocity after the gravity sub-step is at most
`restitutionThreshold` ends the tick with `velocity.y = 0`, resting
exactly at `screenBottom`. -/
theorem C2_rest_at_bottom (g : Vector2) (b : RigidBody)
    (hcross : b.position.y > screenBottom)
    (hslow : fadd b.velocity.y g.y ≤ restitutionThreshold) :
    (simulateBody true g b).velocity.y = 0 ∧
      (simulateBody true g b).position.y = screenBottom := by
  unfold simulateBody
  have h1p : (stepGravity true g b).position = b.position := rfl
  have h1v : (stepGravity true g b).velocity.y = fadd b.velocity.y g.y := rfl
  set b1 := stepGravity true g b with hb1
  have h2p : (stepFriction true b1).position = b1.position :=
    (stepFriction_gravity_y b1).1
  have h2v : (stepFriction true b1).velocity.y = b1.velocity.y :=
    (stepFriction_gravity_y b1).2
  set b2 := stepFriction true b1 with hb2
  have h3p : (stepHBounce b2).position.y = b2.position.y := stepHBounce_py b2
  have h3v : (stepHBounce b2).velocity.y = b2.velocity.y := stepHBounce_vy b2
  set b3 := stepHBounce b2 with hb3
  have hc3 : b3.position.y > screenBottom := by
    rw [h3p, h2p, h1p]
    exact hcross
  have hs3 : ¬(b3.velocity.y > restitutionThreshold) := by
    rw [h3v, h2v, h1v]
    omega
  have hset := stepVBounce_settle b3 hc3 hs3
  set b4 := stepVBounce true b3 with hb4
  refine ⟨?_, ?_⟩
  · show (stepIntegrate b4).velocity.y = 0
    simpa [stepIntegrate] using hset.2
  · show (stepIntegrate b4).position.y = screenBottom
    simp only [stepIntegrate, Point2.addVector]
    rw [hset.1, hset.2]
    decide

/-- C2 witness: gravity `(0, 0.5)`, a body just past the bottom
(internal `449`) with zero vertical velocity ends the tick at rest:
`velocity.y = 0` and `position.y = screenBottom`. -/
theorem C2_rest_at_bottom_witness :
    (simulateBody true ⟨0, 4⟩ ⟨⟨0, 449⟩, ⟨0, 0⟩, 8⟩).velocity.y = 0 ∧
      (simulateBody true ⟨0, 4⟩ ⟨⟨0, 449⟩, ⟨0, 0⟩, 8⟩).position.y =
        screenBottom :=
  C2_rest_at_bottom ⟨0, 4⟩ ⟨⟨0, 449⟩, ⟨0, 0⟩, 8⟩ (by decide) (by decide)

/-- C5, as stated, is false: when the modifier (B) is held and the
shake control (A) is just pressed, `updateInput` calls
`randomiseObjects`, which rewrites every body's position.  With the
entropy oracle returning `5` everywhere, body 1 (not body 0) moves from
`(0, 0)` to `(5.0, 5.0)` (internal `(40, 40)`). -/
theorem C5_counterexample :
    ((updateInput ⟨true, true, false, false, false, false, false, false, false⟩
          (fun _ => 5)
          ⟨fun _ => ⟨⟨0, 0⟩, ⟨0, 0⟩, 8⟩, false, ⟨0, 4⟩, true⟩).objects 1).position =
        (⟨40, 40⟩ : Point2) ∧
      (⟨40, 40⟩ : Point2) ≠ (⟨0, 0⟩ : Point2) := by
  decide

/-- C5 (amended): for every input snapshot in which the shake chord
(modifier held and randomise just pressed) is not triggered,
`updateInput` mutates only the gravity-enabled flag, the gravity
vector, the rendering-enabled flag, and body 0's velocity: every other
body is unchanged, and body 0's position and mass are unchanged. -/
theorem C5_frame (inp : InputState) (e : Nat → Int) (s : GameState)
    (h : ¬(inp.bHeld = true ∧ inp.aJustPressed = true)) :
    (∀ i : Fin 8, i ≠ 0 → (updateInput inp e s).objects i = s.objects i) ∧
      ((updateInput inp e s).objects 0).position = (s.objects 0).position ∧
      ((updateInput inp e s).objects 0).mass = (s.objects 0).mass := by
  by_cases hb : inp.bHeld = true
  · have ha : inp.aJustPressed = false := by
      cases haj : inp.aJustPressed
      · rfl
      · exact absurd ⟨hb, haj⟩ h
    have hobj : (updateInput inp e s).objects = s.objects := by
      cases hd : inp.downJustPressed <;> cases hu : inp.upJustPressed <;>
        cases hl : inp.leftJustPressed <;>
          simp [updateInput, hb, ha, hd, hu, hl]
    rw [hobj]
    exact ⟨fun i _ => rfl, rfl, rfl⟩
  · have hb' : inp.bHeld = false := by
      cases hbb : inp.bHeld
      · rfl
      · exact absurd hbb hb
    refine ⟨fun i hi => ?_, ?_, ?_⟩
    · cases haj : inp.aJustPressed <;>
        simp [updateInput, hb', haj, Function.update, hi]
    · cases haj : inp.aJustPressed <;>
        simp [updateInput, hb', haj, Function.update]
    · cases haj : inp.aJustPressed <;>
        simp [updateInput, hb', haj, Function.update]

/-- C5 witness: with the modifier held and the gravity-toggle control
(not the shake control) just pressed, every body other than body 0 is
unchanged and body 0's position and mass are unchanged. -/
theorem C5_frame_witness :
    (∀ i : Fin 8, i ≠ 0 →
        (updateInput ⟨true, false, true, false, false, false, false, false, false⟩
            (fun _ => 0)
            ⟨fun _ => ⟨⟨0, 0⟩, ⟨0, 0⟩, 8⟩, false, ⟨0, 4⟩, true⟩).objects i =
          (⟨fun _ => ⟨⟨0, 0⟩, ⟨0, 0⟩, 8⟩, false, ⟨0, 4⟩, true⟩ :
              GameState).objects i) ∧
      ((updateInput ⟨true, false, true, false, false, false, false, false, false⟩
            (fun _ => 0)
            ⟨fun _ => ⟨⟨0, 0⟩, ⟨0, 0⟩, 8⟩, false, ⟨0, 4⟩, true⟩).objects 0).position =
        ((⟨fun _ => ⟨⟨0, 0⟩, ⟨0, 0⟩, 8⟩, false, ⟨0, 4⟩, true⟩ :
            GameState).objects 0).position :=
  ⟨(C5_frame ⟨true, false, true, false, false, false, false, false, false⟩
      (fun _ => 0) ⟨fun _ => ⟨⟨0, 0⟩, ⟨0, 0⟩, 8⟩, false, ⟨0, 4⟩, true⟩
      (by decide)).1,
   (C5_frame ⟨true, false, true, false, false, false, false, false, false⟩
      (fun _ => 0) ⟨fun _ => ⟨⟨0, 0⟩, ⟨0, 0⟩, 8⟩, false, ⟨0, 4⟩, true⟩
      (by decide)).2.1⟩

/-- C7: applying the gravity-toggle action (modifier held, toggle
control just pressed) twice returns the gravity-enabled flag to its
original value, and applying the gravity-invert action (modifier held,
invert control just pressed) twice returns `gravitationalForce` to its
exact original vector — `Number` negation is exact on the
representable range — for every starting state with in-range gravity
components. -/
theorem C7_double_toggle_invert (s : GameState) (e₁ e₂ e₃ e₄ : Nat → Int)
    (hx : inRange16 s.gravitationalForce.x)
    (hy : inRange16 s.gravitationalForce.y) :
    (updateInput ⟨true, false, true, false, false, false, false, false, false⟩ e₂
        (updateInput ⟨true, false, true, false, false, false, false, false, false⟩
          e₁ s)).gravityEnabled = s.gravityEnabled ∧
      (updateInput ⟨true, false, false, true, false, false, false, false, false⟩ e₄
        (updateInput ⟨true, false, false, true, false, false, false, false, false⟩
          e₃ s)).gravitationalForce = s.gravitationalForce := by
  constructor
  · simp [updateInput]
  · simp only [updateInput]
    norm_num
    exact Vector2.neg_neg hx hy

/-- C7 witness: from the initial state (gravity off, gravity vector
`(0, 0.5)`), toggling twice restores the flag and inverting twice
restores the vector exactly. -/
theorem C7_double_toggle_invert_witness :
    (updateInput ⟨true, false, true, false, false, false, false, false, false⟩
        (fun _ => 0)
        (updateInput ⟨true, false, true, false, false, false, false, false, false⟩
          (fun _ => 0)
          ⟨fun _ => ⟨⟨0, 0⟩, ⟨0, 0⟩, 8⟩, false, ⟨0, 4⟩, true⟩)).gravityEnabled =
      (⟨fun _ => ⟨⟨0, 0⟩, ⟨0, 0⟩, 8⟩, false, ⟨0, 4⟩, true⟩ :
          GameState).gravityEnabled ∧
      (updateInput ⟨true, false, false, true, false, false, false, false, false⟩
        (fun _ => 0)
        (updateInput ⟨true, false, false, true, false, false, false, false, false⟩
          (fun _ => 0)
          ⟨fun _ => ⟨⟨0, 0⟩, ⟨0, 0⟩, 8⟩, false, ⟨0, 4⟩, true⟩)).gravitationalForce =
        (⟨fun _ => ⟨⟨0, 0⟩, ⟨0, 0⟩, 8⟩, false, ⟨0, 4⟩, true⟩ :
            GameState).gravitationalForce :=
  C7_double_toggle_invert
    ⟨fun _ => ⟨⟨0, 0⟩, ⟨0, 0⟩, 8⟩, false, ⟨0, 4⟩, true⟩
    (fun _ => 0) (fun _ => 0) (fun _ => 0) (fun _ => 0)
    (by decide) (by decide)

end Physix
